import Mathlib

/-!
Verification of the two application modules of this repository against their
natural-language specification:

* `src/modules/cpl_creator.py` — the CPL protocol generator
  (`generate_cpl_module`, `validar_estrutura_cpl`, `gerar_sumario_executivo`,
  `executar_fluxo_completo_cpl`);
* `src/services/viral_content_analyzer.py` — the viral content analyzer
  (`analyze_viral_content`, `_identify_viral_content`,
  `_capture_viral_screenshots`, `_attempt_expanded_view_capture`,
  `_attempt_normal_page_capture`).

The code is dynamically typed Python manipulating JSON-like values, so the
embedding starts from a model of Python/JSON values (`PyVal`), of the Python
operations the code uses (`.get`, `in`, `len`, truthiness, subscripting) with
their raising behaviour made explicit through `Except PyErr`, and of the
external effect boundaries (AI backend, file system, browser driver) as
explicit environment records whose fields give the outcome of each external
operation.  Numbers are modelled as rationals (the code only compares scores
and counts lengths; no floating-point rounding is relevant to any claim).
-/

/-- Python exception classes that the modelled code can raise or catch. -/
inductive PyErr where
  | typeError
  | attributeError
  | keyError
  | indexError
  | valueError
  | jsonDecodeError
  | ioError (msg : String)
deriving Repr, DecidableEq

/-- A human-readable rendering of an exception, modelling Python `str(e)`. -/
def pyErrStr : PyErr → String
  | .typeError => "TypeError"
  | .attributeError => "AttributeError"
  | .keyError => "KeyError"
  | .indexError => "IndexError"
  | .valueError => "ValueError"
  | .jsonDecodeError => "JSONDecodeError"
  | .ioError msg => msg

mutual
/-- A Python/JSON value as handled by both modules: `None`, booleans, numbers
(modelled as rationals), strings, lists and string-keyed dicts. -/
inductive PyVal where
  | pnone
  | pbool (b : Bool)
  | num (q : Rat)
  | str (s : String)
  | list (xs : PyList)
  | obj (fs : PyFields)
deriving Repr
/-- A list of Python values (spelled out so that all recursion over `PyVal`
is structural and kernel-reducible). -/
inductive PyList where
  | nil
  | cons (hd : PyVal) (tl : PyList)
deriving Repr
/-- The entries of a Python dict with string keys, in insertion order. -/
inductive PyFields where
  | nil
  | cons (k : String) (v : PyVal) (tl : PyFields)
deriving Repr
end

mutual
/-- Structural equality of Python values (Python `==` restricted to the
JSON-like fragment; used for `in` membership tests on lists and sets). -/
def PyVal.beq : PyVal → PyVal → Bool
  | .pnone, .pnone => true
  | .pbool a, .pbool b => a == b
  | .num a, .num b => a == b
  | .str a, .str b => a == b
  | .list xs, .list ys => PyList.beq xs ys
  | .obj xs, .obj ys => PyFields.beq xs ys
  | _, _ => false
/-- Pointwise equality of Python lists. -/
def PyList.beq : PyList → PyList → Bool
  | .nil, .nil => true
  | .cons a as, .cons b bs => PyVal.beq a b && PyList.beq as bs
  | _, _ => false
/-- Pointwise equality of dict entry lists. -/
def PyFields.beq : PyFields → PyFields → Bool
  | .nil, .nil => true
  | .cons k v as, .cons k2 v2 bs => k == k2 && PyVal.beq v v2 && PyFields.beq as bs
  | _, _ => false
end

/-- Number of elements of a modelled Python list. -/
def PyList.length : PyList → Nat
  | .nil => 0
  | .cons _ tl => 1 + tl.length

/-- Number of entries of a modelled Python dict. -/
def PyFields.length : PyFields → Nat
  | .nil => 0
  | .cons _ _ tl => 1 + tl.length

/-- Whether the dict has an entry with the given key. -/
def PyFields.hasKey : PyFields → String → Bool
  | .nil, _ => false
  | .cons k _ tl, key => k == key || tl.hasKey key

/-- Value stored under a key, if present (first occurrence). -/
def PyFields.lookup : PyFields → String → Option PyVal
  | .nil, _ => none
  | .cons k v tl, key => if k == key then some v else tl.lookup key

/-- Python `dict.get(key, default)` on a dict. -/
def pyGet (fs : PyFields) (key : String) (dflt : PyVal) : PyVal :=
  match fs.lookup key with
  | some v => v
  | none => dflt

/-- Build a modelled list from a Lean list (notation helper for literals). -/
def pyList : List PyVal → PyVal
  | xs => .list (go xs)
where
  go : List PyVal → PyList
    | [] => .nil
    | x :: xs => .cons x (go xs)

/-- Build a modelled dict from a Lean association list (notation helper). -/
def pyObj : List (String × PyVal) → PyVal
  | fs => .obj (go fs)
where
  go : List (String × PyVal) → PyFields
    | [] => .nil
    | (k, v) :: fs => .cons k v (go fs)

/-- Python truthiness: `None`, `False`, `0`, `""` and empty containers are
falsy; everything else is truthy. -/
def PyVal.truthy : PyVal → Bool
  | .pnone => false
  | .pbool b => b
  | .num q => q != 0
  | .str s => !s.isEmpty
  | .list .nil => false
  | .list (.cons _ _) => true
  | .obj .nil => false
  | .obj (.cons _ _ _) => true

/-- Whether a value is hashable in Python (lists and dicts are not; putting an
unhashable value into a set or testing membership raises `TypeError`). -/
def PyVal.hashable : PyVal → Bool
  | .list _ => false
  | .obj _ => false
  | _ => true

/-- Python `key in value` for a string key: key lookup on dicts, element
equality on lists, substring test on strings, `TypeError` otherwise. -/
def pyIn (key : String) : PyVal → Except PyErr Bool
  | .obj fs => .ok (fs.hasKey key)
  | .list xs => .ok (memList xs)
  | .str s => .ok (strHasSub s key)
  | _ => .error .typeError
where
  memList : PyList → Bool
    | .nil => false
    | .cons v tl => PyVal.beq v (.str key) || memList tl
  /-- Whether `pat` occurs at the head of `s`. -/
  leadEq : List Char → List Char → Bool
    | [], _ => true
    | _ :: _, [] => false
    | a :: as, b :: bs => a == b && leadEq as bs
  hasSubAux (pat : List Char) : List Char → Bool
    | [] => leadEq pat []
    | c :: rest => leadEq pat (c :: rest) || hasSubAux pat rest
  /-- Python `pat in s` on strings: substring occurrence. -/
  strHasSub (s pat : String) : Bool := hasSubAux pat.data s.data

/-- Python `value.get(key, default)` on an arbitrary value: works on dicts,
raises `AttributeError` on anything else. -/
def pyGetV (v : PyVal) (key : String) (dflt : PyVal) : Except PyErr PyVal :=
  match v with
  | .obj fs => .ok (pyGet fs key dflt)
  | _ => .error .attributeError

/-- Python `len(value)`: defined for strings, lists and dicts, raises
`TypeError` otherwise. -/
def pyLen : PyVal → Except PyErr Nat
  | .str s => .ok s.length
  | .list xs => .ok xs.length
  | .obj fs => .ok fs.length
  | _ => .error .typeError

/-- Python `value[key]` for a string key: key lookup on dicts (`KeyError` when
missing), `TypeError` on everything else (list and string indices must be
integers). -/
def pySubscript (v : PyVal) (key : String) : Except PyErr PyVal :=
  match v with
  | .obj fs =>
      match fs.lookup key with
      | some w => .ok w
      | none => .error .keyError
  | _ => .error .typeError

/-- Python `value[0]`: first element of a list (`IndexError` when empty),
first character of a string, `TypeError`/`KeyError` otherwise. -/
def pyIndexZero : PyVal → Except PyErr PyVal
  | .list .nil => .error .indexError
  | .list (.cons v _) => .ok v
  | .str s => if s.isEmpty then .error .indexError else .ok (.str (String.mk [s.data.head!]))
  | .obj _ => .error .keyError
  | _ => .error .typeError

/-- Lowercase a character (ASCII, as used by the platform names here). -/
def lowerChar (c : Char) : Char :=
  if 'A' ≤ c ∧ c ≤ 'Z' then Char.ofNat (c.toNat + 32) else c

/-- Python `str.lower()` (ASCII fragment). -/
def lowerStr (s : String) : String := String.mk (s.data.map lowerChar)

/-- Python `value.lower()`: defined on strings, raises `AttributeError` on
anything else. -/
def pyLower : PyVal → Except PyErr String
  | .str s => .ok (lowerStr s)
  | _ => .error .attributeError

/-- Whether one string starts with another (Python `str.startswith`). -/
def startsWithStr (s pat : String) : Bool :=
  pyIn.leadEq pat.data s.data

/-! ## Viral content analyzer (`src/services/viral_content_analyzer.py`) -/

/-- Digit string to number (helper for the float model). -/
def digitsVal (cs : List Char) : Nat :=
  cs.foldl (fun n c => n * 10 + (c.toNat - 48)) 0

/-- Python `float(s)` on a string, for the decimal fragment actually relevant
here: optional surrounding spaces, optional sign, digits with an optional
fractional part.  (Exponents, `inf`/`nan` and digit underscores are outside
the modelled fragment.)  `none` models `ValueError`. -/
def parseFloatStr (s : String) : Option Rat :=
  let cs := ((s.data.dropWhile (· == ' ')).reverse.dropWhile (· == ' ')).reverse
  let signed : Bool × List Char :=
    match cs with
    | '-' :: rest => (true, rest)
    | '+' :: rest => (false, rest)
    | _ => (false, cs)
  let ip := signed.2.takeWhile Char.isDigit
  let rest := signed.2.dropWhile Char.isDigit
  let val? : Option Rat :=
    match rest with
    | [] => if ip.isEmpty then none else some (digitsVal ip : Rat)
    | '.' :: fp =>
        if fp.all Char.isDigit && !(ip.isEmpty && fp.isEmpty) then
          some ((digitsVal ip : Rat) + (digitsVal fp : Rat) / ((10 : Rat) ^ fp.length))
        else none
    | _ => none
  val?.map (fun q => if signed.1 then -q else q)

/-- Python `float(x)`: numbers pass through, booleans become 0/1, strings are
parsed (`ValueError` on failure), everything else raises `TypeError`. -/
def pyFloat : PyVal → Except PyErr Rat
  | .num q => .ok q
  | .pbool b => .ok (if b then 1 else 0)
  | .str s =>
      match parseFloatStr s with
      | some q => .ok q
      | none => .error .valueError
  | _ => .error .typeError

/-- The ranking key of `_identify_viral_content` (inner `sort_key`):
`float(item.get('viral_score', item.get('engagement_rate', 0)))`, with
`ValueError`/`TypeError` coerced to `0.0`. -/
def sort_key (item : PyFields) : Rat :=
  match pyFloat (pyGet item "viral_score" (pyGet item "engagement_rate" (.num 0))) with
  | .ok q => q
  | .error _ => 0

/-- Insert into a descending-sorted list, after all strictly greater keys and
before equal ones (the element being inserted comes from an earlier original
position, which is what CPython's stable `sorted(..., reverse=True)` does). -/
def insertDescBy (key : PyFields → Rat) (a : PyFields) : List PyFields → List PyFields
  | [] => [a]
  | b :: rest => if key a < key b then b :: insertDescBy key a rest else a :: b :: rest

/-- Stable descending sort by a rational key, modelling Python
`sorted(xs, key=key, reverse=True)`. -/
def sortDescBy (key : PyFields → Rat) : List PyFields → List PyFields
  | [] => []
  | a :: rest => insertDescBy key a (sortDescBy key rest)

/-- `content.get('url', '')`. -/
def urlOf (c : PyFields) : PyVal := pyGet c "url" (.str "")

/-- The selection loop of `_identify_viral_content`: walk the sorted list,
keep an entry when its URL is truthy, not yet seen, and fewer than 20 entries
have been kept; membership of an unhashable URL in the seen-set raises
`TypeError` (which propagates out of `_identify_viral_content`). -/
def dedupViral : List PyFields → List PyVal → List PyFields → Except PyErr (List PyFields)
  | [], _, acc => .ok acc
  | c :: rest, seen, acc =>
      let url := urlOf c
      if url.truthy then
        if url.hashable then
          if seen.any (fun u => PyVal.beq u url) then dedupViral rest seen acc
          else if acc.length < 20 then dedupViral rest (url :: seen) (acc ++ [c])
          else dedupViral rest seen acc
      else .error .typeError
      else dedupViral rest seen acc

/-- `ViralContentAnalyzer._identify_viral_content`: sort by `sort_key`
descending (stable), then deduplicate by URL keeping at most 20 entries.
(The source's early `return []` for an empty input is the same value this
computation yields.) -/
def identify_viral_content (all_social_results : List PyFields) : Except PyErr (List PyFields) :=
  dedupViral (sortDescBy sort_key all_social_results) [] []

/-- Outcome of the browser operations of one capture attempt, up to the point
where the screenshot file is inspected: `navOk` is whether navigation and the
page-load waits succeeded (any exception there is caught by the attempt's own
`try` and reported as failure); `saved` is, when `driver.save_screenshot` ran
without raising and the file exists, the size in bytes of the saved file. -/
structure AttemptEnv where
  navOk : Bool
  saved : Option Nat
deriving Repr, DecidableEq

/-- One entry of the `screenshots` list built by `_capture_viral_screenshots`
(the `captured_at` timestamp is outside the model; `fileSize` records the
`os.path.getsize` value observed at the validation check). -/
structure ScreenshotRecord where
  content_data : PyFields
  screenshot_path : String
  relative_path : String
  filename : String
  url : PyVal
  title : PyVal
  platform : String
  viral_score : PyVal
  capture_method : String
  fileSize : Nat
deriving Repr

/-- Result of one capture attempt: the returned boolean, the record appended
to the shared screenshots list (if any), and the size of the screenshot file
this attempt left on disk (`none` when the file was deleted or never
created). -/
structure AttemptOutcome where
  success : Bool
  record : Option ScreenshotRecord
  fileKept : Option Nat
deriving Repr

/-- Python `f"{i:02d}"` for the nonnegative indices used here. -/
def pad2 (i : Nat) : String := if i < 10 then "0" ++ toString i else toString i

/-- The record built by both capture helpers on success. -/
def mkScreenshotRecord (content : PyFields) (url : PyVal) (platform : String)
    (filename method sid : String) (size : Nat) : ScreenshotRecord :=
  { content_data := content
    screenshot_path := "analyses_data/files/" ++ sid ++ "/" ++ filename
    relative_path := "files/" ++ sid ++ "/" ++ filename
    filename := filename
    url := url
    title := pyGet content "title" (.str "")
    platform := platform
    viral_score := pyGet content "viral_score" (pyGet content "engagement_rate" (.num 0))
    capture_method := method
    fileSize := size }

/-- `ViralContentAnalyzer._attempt_expanded_view_capture`: navigate, try the
platform-specific expand clicks (all failures there are swallowed), save a
screenshot named `viral_post_{index:02d}.png`, then keep it and append a
record only when the file exists and exceeds 1024 bytes; otherwise the file
is removed and the attempt reports failure.  Any exception inside is caught
and reported as failure. -/
def attempt_expanded_view_capture (env : AttemptEnv) (content : PyFields) (url : PyVal)
    (platform : String) (index : Nat) (sid : String) : AttemptOutcome :=
  if !env.navOk then ⟨false, none, none⟩
  else
    match env.saved with
    | none => ⟨false, none, none⟩
    | some size =>
        if 1024 < size then
          ⟨true, some (mkScreenshotRecord content url platform
              ("viral_post_" ++ pad2 index ++ ".png") "expanded_view" sid size), some size⟩
        else ⟨false, none, none⟩

/-- `ViralContentAnalyzer._attempt_normal_page_capture`: same shape as the
expanded attempt but with filename `viral_web_{index:02d}.png` and capture
method `full_page`. -/
def attempt_normal_page_capture (env : AttemptEnv) (content : PyFields) (url : PyVal)
    (platform : String) (index : Nat) (sid : String) : AttemptOutcome :=
  if !env.navOk then ⟨false, none, none⟩
  else
    match env.saved with
    | none => ⟨false, none, none⟩
    | some size =>
        if 1024 < size then
          ⟨true, some (mkScreenshotRecord content url platform
              ("viral_web_" ++ pad2 index ++ ".png") "full_page" sid size), some size⟩
        else ⟨false, none, none⟩

/-- Browser outcomes for the two attempts one candidate may make. -/
structure CandEnv where
  expanded : AttemptEnv
  normal : AttemptEnv
deriving Repr, DecidableEq

/-- The per-candidate body of the capture loop (lines 221-252 of the source):
skip candidates without a truthy URL; a non-string platform makes
`.lower()` raise, which the per-item `except` turns into a skip; platforms
containing `facebook` or `instagram` first try the expanded capture and fall
back to the normal capture; everything else goes straight to the normal
capture.  Returns the record this iteration appends, if any. -/
def processCandidate (c : PyFields) (e : CandEnv) (index : Nat) (sid : String) :
    Option ScreenshotRecord :=
  let url := pyGet c "url" (.str "")
  if !url.truthy then none
  else
    match pyLower (pyGet c "platform" (.str "web")) with
    | .error _ => none
    | .ok platform =>
        if pyIn.strHasSub platform "facebook" || pyIn.strHasSub platform "instagram" then
          let exp := attempt_expanded_view_capture e.expanded c url platform index sid
          if exp.success then exp.record
          else (attempt_normal_page_capture e.normal c url platform index sid).record
        else (attempt_normal_page_capture e.normal c url platform index sid).record

/-- The `for i, content in enumerate(viral_content, 1)` loop of
`_capture_viral_screenshots`: break as soon as the accumulated list has
reached `max_captures`, otherwise process the candidate (appending at most
one record) and continue. -/
def captureLoop (maxCaptures : Nat) (envs : Nat → CandEnv) (sid : String) :
    List PyFields → Nat → List ScreenshotRecord → List ScreenshotRecord
  | [], _, acc => acc
  | c :: rest, i, acc =>
      if maxCaptures ≤ acc.length then acc
      else
        match processCandidate c (envs i) i sid with
        | some r => captureLoop maxCaptures envs sid rest (i + 1) (acc ++ [r])
        | none => captureLoop maxCaptures envs sid rest (i + 1) acc

/-- External outcomes of `_capture_viral_screenshots`: whether importing
selenium succeeds (an `ImportError` is caught and yields no screenshots),
whether the driver/service initialisation succeeds (any exception there is
caught by the broad `except Exception`), and the browser outcomes for the
candidate at each 1-based loop index. -/
structure CaptureEnv where
  seleniumOk : Bool
  driverOk : Bool
  attempts : Nat → CandEnv

/-- `ViralContentAnalyzer._capture_viral_screenshots`: empty candidate list
short-circuits; a failed selenium import or driver initialisation is caught
and the (still empty) screenshots list is returned; otherwise the capture
loop runs.  This function never raises: `ImportError` and every other
exception are caught by its own handlers. -/
def capture_viral_screenshots (env : CaptureEnv) (viral_content : List PyFields)
    (sid : String) (maxCaptures : Nat) : List ScreenshotRecord :=
  if viral_content.isEmpty then []
  else if !env.seleniumOk then []
  else if !env.driverOk then []
  else captureLoop maxCaptures env.attempts sid viral_content 1 []

/-- The two result lists read from `dados_pesquisa_web.json` (the loaded JSON
with its `social_results` and `youtube_results` entries, both lists of
candidate dicts per this module's typing). -/
structure ResearchData where
  social_results : List PyFields
  youtube_results : List PyFields

/-- The `summary` block of the analysis result. -/
structure AnalysisSummary where
  total_social_items_analyzed : Nat
  viral_content_found : Nat
  screenshots_taken : Nat
deriving Repr, DecidableEq

/-- The dictionary returned by `analyze_viral_content` on its success path
(the `analysis_timestamp` is outside the model). -/
structure AnalysisResult where
  session_id : String
  search_query : String
  viral_content_identified : List PyFields
  screenshots_captured : List ScreenshotRecord
  summary : AnalysisSummary
deriving Repr

/-- External outcomes of one `analyze_viral_content` call: the initial
`os.makedirs`, existence and parse outcome of the research file (a load
failure is swallowed), the capture environment, whether the summary write
succeeds (a failure is swallowed), and — on the error path — the outcome of
the handler's own `os.makedirs` and error-file write. -/
structure VEnv where
  makedirsOk : Except PyErr Unit
  fileExists : Bool
  fileLoad : Except PyErr ResearchData
  capture : CaptureEnv
  summaryWriteOk : Bool
  errorMakedirs : Except PyErr Unit
  errorWriteOk : Bool

/-- Path of the per-session viral-analysis summary file. -/
def resumoPath (sid : String) : String :=
  "analyses_data/" ++ sid ++ "/analise_viral_resumo.json"

/-- Path of the per-session viral-analysis error file. -/
def erroPath (sid : String) : String :=
  "analyses_data/" ++ sid ++ "/analise_viral_erro.json"

/-- What a call returns to its caller (`.error` models a raised exception)
together with the files it successfully wrote. -/
structure AnalyzeOutcome where
  result : Except PyErr AnalysisResult
  writes : List String

/-- The research data `analyze_viral_content` works with: the parsed file
when it exists and loads, and the empty default otherwise (lines 53-61: a
missing file is skipped, a load error is logged and swallowed). -/
def loadedResearch (env : VEnv) : ResearchData :=
  if env.fileExists then
    match env.fileLoad with
    | .ok d => d
    | .error _ => ⟨[], []⟩
  else ⟨[], []⟩

/-- The `except Exception` handler of `analyze_viral_content` (lines
106-138): re-ensure the session directory (an exception here replaces the
one being handled), best-effort write the error record, then re-raise the
original exception. -/
def handleAnalyzeError (env : VEnv) (sid : String) (e : PyErr) : AnalyzeOutcome :=
  match env.errorMakedirs with
  | .error e2 => ⟨.error e2, []⟩
  | .ok _ =>
      if env.errorWriteOk then ⟨.error e, [erroPath sid]⟩
      else ⟨.error e, []⟩

/-- `ViralContentAnalyzer.analyze_viral_content`: ensure the session
directory, load the persisted research file (absence or unreadability gives
the empty set), merge `social_results` and `youtube_results`, rank and
deduplicate them, capture screenshots, assemble the result, best-effort
persist the summary, and return.  Any exception escaping these steps (the
initial `makedirs`, or a `TypeError` from ranking) goes through the error
handler and is re-raised. -/
def analyze_viral_content (env : VEnv) (search_query sid : String) (maxCaptures : Nat) :
    AnalyzeOutcome :=
  match env.makedirsOk with
  | .error e => handleAnalyzeError env sid e
  | .ok _ =>
      let data := loadedResearch env
      let combined := data.social_results ++ data.youtube_results
      match identify_viral_content combined with
      | .error e => handleAnalyzeError env sid e
      | .ok viral =>
          let shots := capture_viral_screenshots env.capture viral sid maxCaptures
          let result : AnalysisResult :=
            { session_id := sid
              search_query := search_query
              viral_content_identified := viral
              screenshots_captured := shots
              summary :=
                { total_social_items_analyzed := combined.length
                  viral_content_found := viral.length
                  screenshots_taken := shots.length } }
          ⟨.ok result, if env.summaryWriteOk then [resumoPath sid] else []⟩

/-! ## CPL creator (`src/modules/cpl_creator.py`) -/

/-- Whether the value is a dict. -/
def PyVal.isObj : PyVal → Bool
  | .obj _ => true
  | _ => false

/-- Whether Python slicing `v[:n]` is defined for the value (lists and
strings are; slicing anything else raises `TypeError`). -/
def sliceable : PyVal → Bool
  | .list _ => true
  | .str _ => true
  | _ => false

/-- Keys of a dict, in order. -/
def PyFields.keysOf : PyFields → List String
  | .nil => []
  | .cons k _ tl => k :: tl.keysOf

/-- Whether a dict value has exactly the given key set (every listed key
present, no key outside the list); `false` for non-dicts. -/
def topKeysExactly (v : PyVal) (ks : List String) : Bool :=
  match v with
  | .obj fs => ks.all (fun k => fs.hasKey k) && fs.keysOf.all (fun k => ks.contains k)
  | _ => false

/-- Key lookup on a dict value (`none` for non-dicts or missing keys). -/
def pyLookup (v : PyVal) (key : String) : Option PyVal :=
  match v with
  | .obj fs => fs.lookup key
  | _ => none

/-- The raising behaviour of assembling `contexto_para_ia` (lines 42-51):
`dados_web.items()` raises on a truthy non-dict, and each of the four
`contexto_estrategico.get(...)[:n]` samples raises when `contexto_estrategico`
is a truthy non-dict (`.get`) or the sampled value is not sliceable.  The
assembled payload itself only feeds the prompt string, so only the
raise-or-not outcome matters to the control flow. -/
def preparar_contexto_para_ia (contexto_estrategico dados_web : PyVal) : Except PyErr Unit :=
  if dados_web.truthy && !dados_web.isObj then .error .attributeError
  else if contexto_estrategico.truthy then
    match contexto_estrategico with
    | .obj fs =>
        if !sliceable (pyGet fs "termos_chave" (pyList [])) then .error .typeError
        else if !sliceable (pyGet fs "objecoes" (pyList [])) then .error .typeError
        else if !sliceable (pyGet fs "tendencias" (pyList [])) then .error .typeError
        else if !sliceable (pyGet fs "casos_sucesso" (pyList [])) then .error .typeError
        else .ok ()
    | _ => .error .attributeError
  else .ok ()

/-- The `consideracoes_finais` block shared by both degraded structures. -/
def consideracoesPadrao : PyVal :=
  pyObj [("impacto_previsto", .str "Não aplicável"),
         ("diferenciais", pyList []),
         ("proximos_passos", pyList [.str "Verificar logs de erro", .str "Tentar regenerar o módulo"])]

/-- The parse-failure fallback structure of `generate_cpl_module`
(lines 319-328). -/
def fallback_cpl : PyVal :=
  pyObj [("titulo", .str "Protocolo de CPLs Devastadores"),
         ("descricao", .str "Protocolo gerado com base nos dados estratégicos disponíveis"),
         ("fases", pyObj []),
         ("consideracoes_finais", consideracoesPadrao)]

/-- The exception-path error structure of `generate_cpl_module`
(lines 335-344), with `str(e)` interpolated into the description. -/
def erro_cpl (eMsg : String) : PyVal :=
  pyObj [("titulo", .str "Protocolo de CPLs - Erro na Geração"),
         ("descricao", .str ("Não foi possível gerar o protocolo completo devido a: " ++ eMsg)),
         ("fases", pyObj []),
         ("consideracoes_finais", consideracoesPadrao)]

/-- What `generate_cpl_module` returns together with the persistence calls it
makes (step name and category passed to `salvar_etapa`). -/
structure GenResult where
  result : PyVal
  etapas : List (String × String)

/-- `generate_cpl_module`.  The external boundary — the AI call composed with
`json.loads` on its returned text — is one environment value `ai`: the outer
`Except` is the AI call raising, the inner one is the parse outcome of the
returned text (any JSON value is reachable since the backend may return any
text).  Context assembly happens before the AI call and its exceptions land
in the same broad handler.  On a successful parse the parsed value is
returned as-is; a parse failure returns `fallback_cpl`; any exception
returns `erro_cpl` after persisting an error marker.  The function never
raises to its caller. -/
def generate_cpl_module (ai : Except PyErr (Except Unit PyVal))
    (_session_id : String) (_sintese_master _avatar_data : PyVal)
    (contexto_estrategico dados_web : PyVal) : GenResult :=
  match preparar_contexto_para_ia contexto_estrategico dados_web with
  | .error e => ⟨erro_cpl (pyErrStr e), [("cpl_erro", "modulos_principais")]⟩
  | .ok _ =>
      match ai with
      | .error e => ⟨erro_cpl (pyErrStr e), [("cpl_erro", "modulos_principais")]⟩
      | .ok (.error _) => ⟨fallback_cpl, [("cpl_completo", "modulos_principais")]⟩
      | .ok (.ok v) => ⟨v, [("cpl_completo", "modulos_principais")]⟩

/-- The four required top-level keys (line 362). -/
def campos_obrigatorios : List String :=
  ["titulo", "descricao", "fases", "consideracoes_finais"]

/-- The five required phase keys (lines 369-375). -/
def fases_esperadas : List String :=
  ["fase_1_arquitetura", "fase_2_cpl1", "fase_3_cpl2", "fase_4_cpl3", "fase_5_cpl4"]

/-- The `for campo in ...: if campo not in v: return False` pattern: tests
the keys in order with Python `in`, stopping at the first missing key or
raised exception. -/
def allKeysIn (keys : List String) (v : PyVal) : Except PyErr Bool :=
  match keys with
  | [] => .ok true
  | k :: rest =>
      match pyIn k v with
      | .error e => .error e
      | .ok true => allKeysIn rest v
      | .ok false => .ok false

/-- The body of `validar_estrutura_cpl` inside its `try`: check the four
required keys on the module with Python `in`, then fetch `fases` with
`.get` and check the five phase keys on it with Python `in`. -/
def validarBody (modulo_cpl : PyVal) : Except PyErr Bool :=
  match allKeysIn campos_obrigatorios modulo_cpl with
  | .error e => .error e
  | .ok false => .ok false
  | .ok true =>
      match pyGetV modulo_cpl "fases" (pyObj []) with
      | .error e => .error e
      | .ok fases => allKeysIn fases_esperadas fases

/-- `validar_estrutura_cpl`: the body with its `except Exception` handler
turning any raise into `False`. -/
def validar_estrutura_cpl (modulo_cpl : PyVal) : Bool :=
  match validarBody modulo_cpl with
  | .ok b => b
  | .error _ => false

/-- The executive summary record assembled by `gerar_sumario_executivo` on
its non-degraded path (fields in the order the final dict carries them;
`total_garantias` is inserted after construction and therefore comes last,
while `garantias_oferecidas` keeps its initial value `0`, which lines
405-445 never reassign). -/
structure Sumario where
  titulo_protocolo : PyVal
  total_fases : Nat
  estrategia_principal : PyVal
  evento_recomendado : PyVal
  total_bonus : Nat
  garantias_oferecidas : Nat
  nivel_complexidade : String
  tempo_implementacao_estimado : String
  total_garantias : Nat

/-- The summary record rendered as the Python dict it stands for. -/
def sumarioToPy (s : Sumario) : PyVal :=
  pyObj [("titulo_protocolo", s.titulo_protocolo),
         ("total_fases", .num (s.total_fases : Rat)),
         ("estrategia_principal", s.estrategia_principal),
         ("evento_recomendado", s.evento_recomendado),
         ("total_bonus", .num (s.total_bonus : Rat)),
         ("garantias_oferecidas", .num (s.garantias_oferecidas : Rat)),
         ("nivel_complexidade", .str s.nivel_complexidade),
         ("tempo_implementacao_estimado", .str s.tempo_implementacao_estimado),
         ("total_garantias", .num (s.total_garantias : Rat))]

/-- `len([k for k in fs.keys() if k.startswith("bonus_")])`. -/
def bonusKeyCount : PyFields → Nat
  | .nil => 0
  | .cons k _ tl => (if startsWithStr k "bonus_" then 1 else 0) + bonusKeyCount tl

/-- The body of `gerar_sumario_executivo` inside its `try` (lines 403-445),
with every Python operation that can raise made explicit, in the source's
evaluation order: `fases` lookup, the summary dict literal (title, `len`,
strategy chain), the recommended-event block, the bonus count, the
guarantees count, the element total and the complexity tier. -/
def gerarSumarioBody (modulo_cpl : PyVal) : Except PyErr Sumario :=
  match pyGetV modulo_cpl "fases" (pyObj []) with
  | .error e => .error e
  | .ok fases =>
    match pyGetV modulo_cpl "titulo" (.str "Não especificado") with
    | .error e => .error e
    | .ok tituloP =>
      match pyLen fases with
      | .error e => .error e
      | .ok totalFases =>
        match pyGetV fases "fase_1_arquitetura" (pyObj []) with
        | .error e => .error e
        | .ok arq =>
          match pyGetV arq "estrategia" (.str "Não especificada") with
          | .error e => .error e
          | .ok estrategia =>
            match pyIn "versoes_evento" arq with
            | .error e => .error e
            | .ok temVersoes =>
              match ((if temVersoes then
                       match pySubscript arq "versoes_evento" with
                       | .error e => .error e
                       | .ok versoes =>
                           if versoes.truthy then
                             match pyIndexZero versoes with
                             | .error e => .error e
                             | .ok primeiro =>
                                 pyGetV primeiro "nome_evento" (.str "Não especificado")
                           else .ok PyVal.pnone
                     else .ok PyVal.pnone) : Except PyErr PyVal) with
              | .error e => .error e
              | .ok evento =>
                match pyGetV fases "fase_5_cpl4" (pyObj []) with
                | .error e => .error e
                | .ok cpl4 =>
                  match pyGetV cpl4 "stack_valor" (pyObj []) with
                  | .error e => .error e
                  | .ok stack =>
                    match (match stack with
                           | .obj gs => Except.ok (bonusKeyCount gs)
                           | _ => .error PyErr.attributeError) with
                    | .error e => .error e
                    | .ok totalBonus =>
                      match pyGetV cpl4 "garantias_agressivas" (pyList []) with
                      | .error e => .error e
                      | .ok garantias =>
                        let totalGar : Nat :=
                          match garantias with
                          | .list xs => xs.length
                          | _ => 0
                        match pyGetV fases "fase_2_cpl1" (pyObj []) with
                        | .error e => .error e
                        | .ok f2 =>
                          match pyGetV f2 "teasers" (pyList []) with
                          | .error e => .error e
                          | .ok teasers =>
                            match pyLen teasers with
                            | .error e => .error e
                            | .ok n1 =>
                              match pyGetV fases "fase_3_cpl2" (pyObj []) with
                              | .error e => .error e
                              | .ok f3 =>
                                match pyGetV f3 "casos_sucesso_detalhados" (pyList []) with
                                | .error e => .error e
                                | .ok casos =>
                                  match pyLen casos with
                                  | .error e => .error e
                                  | .ok n2 =>
                                    match pyGetV fases "fase_4_cpl3" (pyObj []) with
                                    | .error e => .error e
                                    | .ok f4 =>
                                      match pyGetV f4 "estrutura_passo_passo" (pyList []) with
                                      | .error e => .error e
                                      | .ok passos =>
                                        match pyLen passos with
                                        | .error e => .error e
                                        | .ok n3 =>
                                          let totalElementos := n1 + n2 + n3 + totalBonus
                                          .ok { titulo_protocolo := tituloP
                                                total_fases := totalFases
                                                estrategia_principal := estrategia
                                                evento_recomendado := evento
                                                total_bonus := totalBonus
                                                garantias_oferecidas := 0
                                                nivel_complexidade :=
                                                  if 20 < totalElementos then "Alto"
                                                  else if totalElementos < 10 then "Baixo"
                                                  else "Médio"
                                                tempo_implementacao_estimado := "7-14 dias"
                                                total_garantias := totalGar }

/-- The degraded summary returned by the `except` handler (lines 449-454). -/
def sumarioErro (e : PyErr) : PyVal :=
  pyObj [("titulo_protocolo", .str "Erro na geração"),
         ("total_fases", .num 0),
         ("estrategia_principal", .str "Não especificada"),
         ("erro", .str (pyErrStr e))]

/-- `gerar_sumario_executivo`: the body with its `except Exception` handler;
it returns a summary dict on every input and never raises. -/
def gerar_sumario_executivo (modulo_cpl : PyVal) : PyVal :=
  match gerarSumarioBody modulo_cpl with
  | .ok s => sumarioToPy s
  | .error e => sumarioErro e

/-- The body of `executar_fluxo_completo_cpl` inside its `try` (lines
478-522): generate (already done by the caller of this body), validate,
summarize, then assemble the flow result; the metadata entry
`total_fases_geradas` re-reads `modulo_cpl.get("fases", {})`, which raises
when the generated module is not a dict, landing in the outer handler. -/
def fluxoBody (modulo : PyVal) (session_id now : String)
    (sintese avatar contexto dados : PyVal) : Except PyErr PyVal :=
  let estrutura_valida := validar_estrutura_cpl modulo
  let sumario := gerar_sumario_executivo modulo
  match pyGetV modulo "fases" (pyObj []) with
  | .error e => .error e
  | .ok fases =>
      match pyLen fases with
      | .error e => .error e
      | .ok nf =>
          .ok (pyObj
            [("modulo_cpl", modulo),
             ("validacao", pyObj
               [("estrutura_valida", .pbool estrutura_valida),
                ("timestamp_geracao", .str now),
                ("session_id", .str session_id)]),
             ("sumario_executivo", sumario),
             ("metadados", pyObj
               [("versao_sistema", .str "ARQV30 Enhanced v3.0"),
                ("modulo", .str "CPL Creator"),
                ("total_fases_geradas", .num (nf : Rat)),
                ("contexto_utilizado", pyObj
                  [("sintese_master", .pbool sintese.truthy),
                   ("avatar_data", .pbool avatar.truthy),
                   ("contexto_estrategico", .pbool contexto.truthy),
                   ("dados_web", .pbool dados.truthy)])])])

/-- The degraded flow result of the outer `except` handler (lines 524-540). -/
def fluxoErro (e : PyErr) (session_id now : String) : PyVal :=
  pyObj [("modulo_cpl", pyObj []),
         ("validacao", pyObj
           [("estrutura_valida", .pbool false),
            ("erro", .str (pyErrStr e)),
            ("timestamp_geracao", .str now),
            ("session_id", .str session_id)]),
         ("sumario_executivo", pyObj [("erro", .str (pyErrStr e))]),
         ("metadados", pyObj
           [("versao_sistema", .str "ARQV30 Enhanced v3.0"),
            ("modulo", .str "CPL Creator"),
            ("status", .str "erro")])]

/-- `executar_fluxo_completo_cpl`: generate the module, then run the flow
body with the outer handler. -/
def executar_fluxo_completo_cpl (ai : Except PyErr (Except Unit PyVal))
    (session_id now : String) (sintese avatar contexto dados : PyVal) : PyVal :=
  let modulo := (generate_cpl_module ai session_id sintese avatar contexto dados).result
  match fluxoBody modulo session_id now sintese avatar contexto dados with
  | .ok r => r
  | .error e => fluxoErro e session_id now

/-! ## Statement-side definitions and test fixtures -/

/-- The validator as claim C4's sentence reads: pure key presence — the four
top-level keys present in the input mapping and the five phase keys present
as keys of the `fases` mapping (a non-mapping `fases` has no keys, so every
phase key counts as absent).  Stated from the claim's words, to be compared
with `validar_estrutura_cpl`. -/
def validar_estrutura_spec (m : PyVal) : Bool :=
  match m with
  | .obj fs =>
      campos_obrigatorios.all (fun k => fs.hasKey k) &&
      (match fs.lookup "fases" with
       | some (.obj gs) => fases_esperadas.all (fun k => gs.hasKey k)
       | _ => false)
  | _ => false

/-- A fully shaped module with the phase contents the summary builder counts
(teasers, detailed success cases, steps, bonus stack, guarantees), used to
exercise `gerar_sumario_executivo` on its non-degraded path. -/
def mkModuloCpl (teasers casos passos : PyList) (stack : PyFields)
    (garantias estrategia : PyVal) : PyVal :=
  pyObj [("titulo", .str "Protocolo"),
         ("descricao", .str "Descrição"),
         ("fases", pyObj
           [("fase_1_arquitetura", pyObj [("estrategia", estrategia)]),
            ("fase_2_cpl1", pyObj [("teasers", .list teasers)]),
            ("fase_3_cpl2", pyObj [("casos_sucesso_detalhados", .list casos)]),
            ("fase_4_cpl3", pyObj [("estrutura_passo_passo", .list passos)]),
            ("fase_5_cpl4", pyObj
              [("stack_valor", .obj stack),
               ("garantias_agressivas", garantias)])]),
         ("consideracoes_finais", pyObj [])]

/-- A Python list of `n` copies of a placeholder dict entry. -/
def nCopies : Nat → PyList
  | 0 => .nil
  | n + 1 => .cons (pyObj [("texto", .str "x")]) (nCopies n)

/-- Ranking fixture: candidate A, viral score 5, URL "A". -/
def candA : PyFields := .cons "viral_score" (.num 5) (.cons "url" (.str "A") .nil)

/-- Ranking fixture: candidate B, non-numeric viral score, URL "B". -/
def candB : PyFields := .cons "viral_score" (.str "bad") (.cons "url" (.str "B") .nil)

/-- Ranking fixture: candidate C, `None` viral score, URL "C". -/
def candC : PyFields := .cons "viral_score" PyVal.pnone (.cons "url" (.str "C") .nil)

/-- Ranking fixture: candidate D, viral score 9, URL "D". -/
def candD : PyFields := .cons "viral_score" (.num 9) (.cons "url" (.str "D") .nil)

/-- Ranking fixture: candidate E, viral score 9, sharing D's URL. -/
def candE : PyFields :=
  .cons "viral_score" (.num 9) (.cons "url" (.str "D") (.cons "titulo" (.str "E") .nil))

/-- A module whose `fases` value is a *list* containing the five phase names
(not a mapping): Python's `in` finds each name as a list element, so the
validator accepts it although `fases` has no keys at all. -/
def moduloFasesLista : PyVal :=
  pyObj [("titulo", .str "t"),
         ("descricao", .str "d"),
         ("fases", pyList [.str "fase_1_arquitetura", .str "fase_2_cpl1",
            .str "fase_3_cpl2", .str "fase_4_cpl3", .str "fase_5_cpl4"]),
         ("consideracoes_finais", pyObj [])]

/-- A bonus stack with three `bonus_` keys (summary-builder fixture). -/
def stackBonus3 : PyFields :=
  .cons "bonus_1_velocidade" (.str "a")
    (.cons "bonus_2_facilidade" (.str "b")
      (.cons "bonus_3_seguranca" (.str "c") .nil))

/-- The `fases` entries of a fully shaped module (witness fixture): all five
phases present as mapping keys. -/
def modBomFasesFs : PyFields :=
  .cons "fase_1_arquitetura" (pyObj [("estrategia", .str "e")])
    (.cons "fase_2_cpl1" (pyObj [("teasers", .list .nil)])
      (.cons "fase_3_cpl2" (pyObj [("casos_sucesso_detalhados", .list .nil)])
        (.cons "fase_4_cpl3" (pyObj [("estrutura_passo_passo", .list .nil)])
          (.cons "fase_5_cpl4" (pyObj [("stack_valor", .obj .nil),
              ("garantias_agressivas", pyList [])]) .nil))))

/-- The top-level entries of a fully shaped module (witness fixture). -/
def modBomFs : PyFields :=
  .cons "titulo" (.str "Protocolo")
    (.cons "descricao" (.str "Descrição")
      (.cons "fases" (.obj modBomFasesFs)
        (.cons "consideracoes_finais" (.obj .nil) .nil)))

/-- A capture environment whose browser operations all succeed with
2000-byte screenshots. -/
def candEnvGood : CandEnv := ⟨⟨true, some 2000⟩, ⟨true, some 2000⟩⟩

/-- An analyzer environment where every external operation succeeds and the
research file is present with one social candidate. -/
def envWithData : VEnv :=
  { makedirsOk := .ok ()
    fileExists := true
    fileLoad := .ok ⟨[candA], []⟩
    capture := ⟨true, true, fun _ => candEnvGood⟩
    summaryWriteOk := true
    errorMakedirs := .ok ()
    errorWriteOk := true }

/-- An analyzer environment whose selenium import fails. -/
def envNoSelenium : VEnv :=
  { makedirsOk := .ok ()
    fileExists := true
    fileLoad := .ok ⟨[candA], []⟩
    capture := ⟨false, true, fun _ => candEnvGood⟩
    summaryWriteOk := true
    errorMakedirs := .ok ()
    errorWriteOk := true }

/-- An analyzer environment whose initial `os.makedirs` raises. -/
def envMakedirsFails : VEnv :=
  { makedirsOk := .error (.ioError "disk full")
    fileExists := false
    fileLoad := .ok ⟨[], []⟩
    capture := ⟨true, true, fun _ => candEnvGood⟩
    summaryWriteOk := true
    errorMakedirs := .ok ()
    errorWriteOk := true }

/-- An analyzer environment where the research file is absent. -/
def envNoFile : VEnv :=
  { makedirsOk := .ok ()
    fileExists := false
    fileLoad := .error .jsonDecodeError
    capture := ⟨true, true, fun _ => candEnvGood⟩
    summaryWriteOk := true
    errorMakedirs := .ok ()
    errorWriteOk := true }

/-! ## Helper lemmas -/

theorem pyval_beq_refl_of_hashable {v : PyVal} (h : v.hashable = true) :
    PyVal.beq v v = true := by
  cases v <;> simp_all [PyVal.hashable, PyVal.beq]

theorem pyval_eq_of_beq_of_hashable {a b : PyVal} (ha : a.hashable = true)
    (h : PyVal.beq a b = true) : a = b := by
  cases a <;> cases b <;> simp_all [PyVal.hashable, PyVal.beq]

theorem mem_insertDescBy {key : PyFields → Rat} {a x : PyFields} :
    ∀ {l : List PyFields}, x ∈ insertDescBy key a l ↔ x = a ∨ x ∈ l := by
  intro l
  induction l with
  | nil => simp [insertDescBy]
  | cons b rest ih =>
      simp only [insertDescBy]
      split
      · simp only [List.mem_cons, ih]
        tauto
      · simp [List.mem_cons]

theorem pairwise_insertDescBy {key : PyFields → Rat} {a : PyFields}
    {l : List PyFields} (hp : l.Pairwise (fun u v => key v ≤ key u)) :
    (insertDescBy key a l).Pairwise (fun u v => key v ≤ key u) := by
  induction l with
  | nil => simp [insertDescBy]
  | cons b rest ih =>
      rw [List.pairwise_cons] at hp
      obtain ⟨hb, hrest⟩ := hp
      simp only [insertDescBy]
      split
      · rename_i hlt
        rw [List.pairwise_cons]
        refine ⟨fun x hx => ?_, ih hrest⟩
        rcases mem_insertDescBy.mp hx with rfl | hx
        · exact le_of_lt hlt
        · exact hb x hx
      · rename_i hnlt
        rw [List.pairwise_cons]
        refine ⟨fun x hx => ?_, List.pairwise_cons.mpr ⟨hb, hrest⟩⟩
        rcases List.mem_cons.mp hx with rfl | hx
        · exact not_lt.mp hnlt
        · exact le_trans (hb x hx) (not_lt.mp hnlt)

theorem pairwise_sortDescBy (key : PyFields → Rat) :
    ∀ l : List PyFields, (sortDescBy key l).Pairwise (fun u v => key v ≤ key u)
  | [] => by simp [sortDescBy]
  | a :: rest => by
      simp only [sortDescBy]
      exact pairwise_insertDescBy (pairwise_sortDescBy key rest)

theorem dedupViral_ok_append :
    ∀ (l : List PyFields) (seen : List PyVal) (acc ys : List PyFields),
      dedupViral l seen acc = .ok ys →
      ∃ l2, l2.Sublist l ∧ ys = acc ++ l2 := by
  intro l
  induction l with
  | nil =>
      intro seen acc ys h
      simp only [dedupViral] at h
      cases h
      exact ⟨[], List.nil_sublist _, by simp⟩
  | cons c rest ih =>
      intro seen acc ys h
      simp only [dedupViral] at h
      split at h
      · split at h
        · split at h
          · obtain ⟨l2, hs, rfl⟩ := ih _ _ _ h
            exact ⟨l2, hs.cons _, rfl⟩
          · split at h
            · obtain ⟨l2, hs, rfl⟩ := ih _ _ _ h
              exact ⟨c :: l2, hs.cons₂ _, by simp⟩
            · obtain ⟨l2, hs, rfl⟩ := ih _ _ _ h
              exact ⟨l2, hs.cons _, rfl⟩
        · cases h
      · obtain ⟨l2, hs, rfl⟩ := ih _ _ _ h
        exact ⟨l2, hs.cons _, rfl⟩

theorem dedupViral_ok_le20 :
    ∀ (l : List PyFields) (seen : List PyVal) (acc ys : List PyFields),
      dedupViral l seen acc = .ok ys → acc.length ≤ 20 → ys.length ≤ 20 := by
  intro l
  induction l with
  | nil =>
      intro seen acc ys h hle
      simp only [dedupViral] at h
      cases h
      exact hle
  | cons c rest ih =>
      intro seen acc ys h hle
      simp only [dedupViral] at h
      split at h
      · split at h
        · split at h
          · exact ih _ _ _ h hle
          · split at h
            · rename_i hlen
              refine ih _ _ _ h ?_
              simp only [List.length_append, List.length_singleton]
              omega
            · exact ih _ _ _ h hle
        · cases h
      · exact ih _ _ _ h hle

theorem dedupViral_ok_urls :
    ∀ (l : List PyFields) (seen : List PyVal) (acc ys : List PyFields),
      dedupViral l seen acc = .ok ys →
      (∀ a ∈ acc, (urlOf a).truthy = true ∧ (urlOf a).hashable = true ∧
          seen.any (fun u => PyVal.beq u (urlOf a)) = true) →
      acc.Pairwise (fun a b => PyVal.beq (urlOf a) (urlOf b) = false) →
      (∀ a ∈ ys, (urlOf a).truthy = true) ∧
      ys.Pairwise (fun a b => PyVal.beq (urlOf a) (urlOf b) = false) := by
  intro l
  induction l with
  | nil =>
      intro seen acc ys h hinv hpw
      simp only [dedupViral] at h
      cases h
      exact ⟨fun a ha => (hinv a ha).1, hpw⟩
  | cons c rest ih =>
      intro seen acc ys h hinv hpw
      simp only [dedupViral] at h
      split at h
      · rename_i htr
        split at h
        · rename_i hhash
          split at h
          · exact ih _ _ _ h hinv hpw
          · rename_i hnotseen
            split at h
            · -- keep branch: c is appended, its URL joins the seen set
              refine ih _ _ _ h ?_ ?_
              · intro a ha
                rcases List.mem_append.mp ha with ha | ha
                · obtain ⟨h1, h2, h3⟩ := hinv a ha
                  exact ⟨h1, h2, by simp [List.any_cons, h3]⟩
                · rcases List.mem_singleton.mp ha with rfl
                  exact ⟨htr, hhash, by
                    simp [List.any_cons, pyval_beq_refl_of_hashable hhash]⟩
              · rw [List.pairwise_append]
                refine ⟨hpw, List.pairwise_singleton _ _, ?_⟩
                intro a ha b hb
                rcases List.mem_singleton.mp hb with rfl
                by_contra hbeq
                rw [Bool.not_eq_false] at hbeq
                obtain ⟨-, h2, h3⟩ := hinv a ha
                have : urlOf a = urlOf b := pyval_eq_of_beq_of_hashable h2 hbeq
                rw [this] at h3
                rw [Bool.not_eq_true] at hnotseen
                have : seen.any (fun u => PyVal.beq u (urlOf b)) = true := h3
                simp only [List.any_eq_true] at this hnotseen
                exact absurd this (by simpa using hnotseen)
            · exact ih _ _ _ h hinv hpw
        · cases h
      · exact ih _ _ _ h hinv hpw

theorem identify_ok_facts {rs ys : List PyFields}
    (h : identify_viral_content rs = .ok ys) :
    ys.length ≤ 20 ∧
    ys.Pairwise (fun a b => sort_key b ≤ sort_key a) ∧
    ys.Pairwise (fun a b => PyVal.beq (urlOf a) (urlOf b) = false) ∧
    (∀ c ∈ ys, (urlOf c).truthy = true) := by
  unfold identify_viral_content at h
  obtain ⟨l2, hsub, hys⟩ := dedupViral_ok_append _ _ _ _ h
  have hlen : ys.length ≤ 20 := dedupViral_ok_le20 _ _ _ _ h (by simp)
  have hurls := dedupViral_ok_urls _ _ _ _ h (by simp) (by simp)
  have hsorted : ys.Pairwise (fun a b => sort_key b ≤ sort_key a) := by
    rw [hys, List.nil_append]
    exact (pairwise_sortDescBy sort_key rs).sublist hsub
  exact ⟨hlen, hsorted, hurls.2, hurls.1⟩

theorem attempt_expanded_cases (env : AttemptEnv) (c : PyFields) (url : PyVal)
    (p : String) (i : Nat) (sid : String) :
    attempt_expanded_view_capture env c url p i sid = ⟨false, none, none⟩ ∨
    ∃ size, env.saved = some size ∧ 1024 < size ∧
      attempt_expanded_view_capture env c url p i sid =
        ⟨true, some (mkScreenshotRecord c url p ("viral_post_" ++ pad2 i ++ ".png")
            "expanded_view" sid size), some size⟩ := by
  unfold attempt_expanded_view_capture
  split
  · exact Or.inl rfl
  · split
    · exact Or.inl rfl
    · rename_i size heq
      split
      · rename_i hsz
        exact Or.inr ⟨size, heq, hsz, rfl⟩
      · exact Or.inl rfl

theorem attempt_normal_cases (env : AttemptEnv) (c : PyFields) (url : PyVal)
    (p : String) (i : Nat) (sid : String) :
    attempt_normal_page_capture env c url p i sid = ⟨false, none, none⟩ ∨
    ∃ size, env.saved = some size ∧ 1024 < size ∧
      attempt_normal_page_capture env c url p i sid =
        ⟨true, some (mkScreenshotRecord c url p ("viral_web_" ++ pad2 i ++ ".png")
            "full_page" sid size), some size⟩ := by
  unfold attempt_normal_page_capture
  split
  · exact Or.inl rfl
  · split
    · exact Or.inl rfl
    · rename_i size heq
      split
      · rename_i hsz
        exact Or.inr ⟨size, heq, hsz, rfl⟩
      · exact Or.inl rfl

theorem attempt_expanded_record_size {env : AttemptEnv} {c : PyFields} {url : PyVal}
    {p : String} {i : Nat} {sid : String} {r : ScreenshotRecord}
    (h : (attempt_expanded_view_capture env c url p i sid).record = some r) :
    1024 < r.fileSize ∧
      (attempt_expanded_view_capture env c url p i sid).fileKept = some r.fileSize := by
  rcases attempt_expanded_cases env c url p i sid with heq | ⟨size, -, hsz, heq⟩ <;>
    rw [heq] at h ⊢
  · simp at h
  · simp only [Option.some.injEq] at h
    subst h
    exact ⟨hsz, rfl⟩

theorem attempt_normal_record_size {env : AttemptEnv} {c : PyFields} {url : PyVal}
    {p : String} {i : Nat} {sid : String} {r : ScreenshotRecord}
    (h : (attempt_normal_page_capture env c url p i sid).record = some r) :
    1024 < r.fileSize ∧
      (attempt_normal_page_capture env c url p i sid).fileKept = some r.fileSize := by
  rcases attempt_normal_cases env c url p i sid with heq | ⟨size, -, hsz, heq⟩ <;>
    rw [heq] at h ⊢
  · simp at h
  · simp only [Option.some.injEq] at h
    subst h
    exact ⟨hsz, rfl⟩

theorem attempt_small_file_deleted {env : AttemptEnv} {s : Nat}
    (c : PyFields) (url : PyVal) (p : String) (i : Nat) (sid : String)
    (hs : env.saved = some s) (hle : s ≤ 1024) :
    attempt_expanded_view_capture env c url p i sid =
      ⟨false, none, none⟩ ∧
    attempt_normal_page_capture env c url p i sid =
      ⟨false, none, none⟩ := by
  constructor
  · rcases attempt_expanded_cases env c url p i sid with heq | ⟨size, hsv, hsz, -⟩
    · exact heq
    · rw [hs] at hsv
      simp only [Option.some.injEq] at hsv
      omega
  · rcases attempt_normal_cases env c url p i sid with heq | ⟨size, hsv, hsz, -⟩
    · exact heq
    · rw [hs] at hsv
      simp only [Option.some.injEq] at hsv
      omega

theorem processCandidate_size {c : PyFields} {e : CandEnv} {i : Nat} {sid : String}
    {r : ScreenshotRecord} (h : processCandidate c e i sid = some r) :
    1024 < r.fileSize := by
  simp only [processCandidate] at h
  cases htr : (pyGet c "url" (PyVal.str "")).truthy with
  | false => simp [htr] at h
  | true =>
    simp only [htr, Bool.not_true, Bool.false_eq_true, if_false] at h
    cases hlow : pyLower (pyGet c "platform" (PyVal.str "web")) with
    | error e' => simp [hlow] at h
    | ok platform =>
      simp only [hlow] at h
      by_cases hfb : (pyIn.strHasSub platform "facebook" ||
          pyIn.strHasSub platform "instagram") = true
      · rw [if_pos hfb] at h
        by_cases hsuc : (attempt_expanded_view_capture e.expanded c
            (pyGet c "url" (PyVal.str "")) platform i sid).success = true
        · rw [if_pos hsuc] at h
          exact (attempt_expanded_record_size h).1
        · rw [if_neg hsuc] at h
          exact (attempt_normal_record_size h).1
      · rw [if_neg hfb] at h
        exact (attempt_normal_record_size h).1

theorem captureLoop_stop {maxC : Nat} {envs : Nat → CandEnv} {sid : String}
    {cs : List PyFields} {i : Nat} {acc : List ScreenshotRecord}
    (h : maxC ≤ acc.length) : captureLoop maxC envs sid cs i acc = acc := by
  cases cs with
  | nil => rfl
  | cons c rest => simp [captureLoop, h]

theorem captureLoop_le :
    ∀ (cs : List PyFields) (maxC : Nat) (envs : Nat → CandEnv) (sid : String)
      (i : Nat) (acc : List ScreenshotRecord),
      acc.length ≤ maxC → (captureLoop maxC envs sid cs i acc).length ≤ maxC := by
  intro cs
  induction cs with
  | nil =>
      intro maxC envs sid i acc hle
      simpa [captureLoop] using hle
  | cons c rest ih =>
      intro maxC envs sid i acc hle
      simp only [captureLoop]
      split
      · exact hle
      · rename_i hlt
        split
        · refine ih _ _ _ _ _ ?_
          simp only [List.length_append, List.length_singleton]
          omega
        · exact ih _ _ _ _ _ hle

theorem captureLoop_sizes :
    ∀ (cs : List PyFields) (maxC : Nat) (envs : Nat → CandEnv) (sid : String)
      (i : Nat) (acc : List ScreenshotRecord),
      (∀ r ∈ acc, 1024 < r.fileSize) →
      ∀ r ∈ captureLoop maxC envs sid cs i acc, 1024 < r.fileSize := by
  intro cs
  induction cs with
  | nil =>
      intro maxC envs sid i acc hacc
      simpa [captureLoop] using hacc
  | cons c rest ih =>
      intro maxC envs sid i acc hacc
      simp only [captureLoop]
      split
      · exact hacc
      · split
        · rename_i r0 hr0
          refine ih _ _ _ _ _ ?_
          intro r hr
          rcases List.mem_append.mp hr with hr | hr
          · exact hacc r hr
          · rcases List.mem_singleton.mp hr with rfl
            exact processCandidate_size hr0
        · exact ih _ _ _ _ _ hacc

theorem capture_screenshots_le (env : CaptureEnv) (viral : List PyFields)
    (sid : String) (maxC : Nat) :
    (capture_viral_screenshots env viral sid maxC).length ≤ maxC := by
  unfold capture_viral_screenshots
  split
  · simp
  · split
    · simp
    · split
      · simp
      · exact captureLoop_le _ _ _ _ _ _ (by simp)

theorem capture_screenshots_sizes (env : CaptureEnv) (viral : List PyFields)
    (sid : String) (maxC : Nat) :
    ∀ r ∈ capture_viral_screenshots env viral sid maxC, 1024 < r.fileSize := by
  unfold capture_viral_screenshots
  split
  · simp
  · split
    · simp
    · split
      · simp
      · exact captureLoop_sizes _ _ _ _ _ _ (by simp)

theorem gerar_sumario_isObj (m : PyVal) :
    (gerar_sumario_executivo m).isObj = true ∧
    (pyLookup (gerar_sumario_executivo m) "titulo_protocolo").isSome = true := by
  unfold gerar_sumario_executivo
  split
  · simp [sumarioToPy, pyObj, pyObj.go, PyVal.isObj, pyLookup, PyFields.lookup]
  · simp [sumarioErro, pyObj, pyObj.go, PyVal.isObj, pyLookup, PyFields.lookup]

theorem gerarSumarioBody_garantias_oferecidas {m : PyVal} {s : Sumario}
    (h : gerarSumarioBody m = .ok s) : s.garantias_oferecidas = 0 := by
  unfold gerarSumarioBody at h
  repeat' split at h
  all_goals simp only [Except.ok.injEq, reduceCtorEq] at h
  all_goals rw [← h]

theorem lookup_sumarioToPy_garantias (s : Sumario) :
    pyLookup (sumarioToPy s) "garantias_oferecidas" =
      some (.num (s.garantias_oferecidas : Rat)) := by
  simp [sumarioToPy, pyObj, pyObj.go, pyLookup, PyFields.lookup]

theorem allKeysIn_obj (ks : List String) (fs : PyFields) :
    allKeysIn ks (.obj fs) = .ok (ks.all (fun k => fs.hasKey k)) := by
  induction ks with
  | nil => rfl
  | cons k rest ih =>
      simp only [allKeysIn, pyIn, List.all_cons]
      cases hk : fs.hasKey k with
      | false => simp
      | true => simpa using ih

theorem allKeysIn_list (ks : List String) (xs : PyList) :
    allKeysIn ks (.list xs) = .ok (ks.all (fun k => pyIn.memList k xs)) := by
  induction ks with
  | nil => rfl
  | cons k rest ih =>
      simp only [allKeysIn, pyIn, List.all_cons]
      cases hk : pyIn.memList k xs with
      | false => simp
      | true => simpa using ih

/-! ## Claim theorems -/

/-- C2: `_identify_viral_content` ranks candidates descending by
`viral_score`, falling back to `engagement_rate` then to `0`, coercing
non-numeric values to `0.0` without raising (`sort_key` is total); the
deduplicated output keeps the first-seen entry per URL in sorted order,
contains only entries with a truthy URL and no duplicate URLs, and has at
most 20 entries.  On the spec's example — scores `[5, "bad", None, 9, 9]`,
URLs `[A, B, C, D, E]` with D and E sharing a URL — the output is
`[D, A, B, C]`: the first-seen of the two 9-scored entries, then A, then the
score-0 entries, with no duplicate URL. -/
theorem claim_c2_ranking :
    (∀ (rs ys : List PyFields), identify_viral_content rs = .ok ys →
        ys.length ≤ 20 ∧
        ys.Pairwise (fun a b => sort_key b ≤ sort_key a) ∧
        ys.Pairwise (fun a b => PyVal.beq (urlOf a) (urlOf b) = false) ∧
        (∀ c ∈ ys, (urlOf c).truthy = true)) ∧
    sort_key candB = 0 ∧ sort_key candC = 0 ∧
    identify_viral_content [candA, candB, candC, candD, candE] =
      .ok [candD, candA, candB, candC] :=
  ⟨fun _ _ h => identify_ok_facts h, rfl, rfl, rfl⟩

/-- Witness for C2: the concrete example instantiates the universally
quantified ranking facts. -/
theorem claim_c2_ranking_witness :
    identify_viral_content [candA, candB, candC, candD, candE] =
      .ok [candD, candA, candB, candC] ∧
    ([candD, candA, candB, candC].length ≤ 20 ∧
      [candD, candA, candB, candC].Pairwise (fun a b => sort_key b ≤ sort_key a) ∧
      [candD, candA, candB, candC].Pairwise
        (fun a b => PyVal.beq (urlOf a) (urlOf b) = false) ∧
      (∀ c ∈ [candD, candA, candB, candC], (urlOf c).truthy = true)) :=
  ⟨rfl, claim_c2_ranking.1 [candA, candB, candC, candD, candE]
    [candD, candA, candB, candC] rfl⟩

/-- C6: the capture loop of `_capture_viral_screenshots` breaks as soon as
the recorded screenshots reach `max_captures` (a loop state that has already
reached the cap is returned unchanged, whatever candidates remain), and the
returned list never exceeds `max_captures` records. -/
theorem claim_c6_capture_cap :
    (∀ (env : CaptureEnv) (viral : List PyFields) (sid : String) (maxC : Nat),
        (capture_viral_screenshots env viral sid maxC).length ≤ maxC) ∧
    (∀ (maxC : Nat) (envs : Nat → CandEnv) (sid : String) (cs : List PyFields)
        (i : Nat) (acc : List ScreenshotRecord), maxC ≤ acc.length →
        captureLoop maxC envs sid cs i acc = acc) ∧
    (∀ (maxC : Nat) (envs : Nat → CandEnv) (sid : String) (cs : List PyFields)
        (i : Nat) (acc : List ScreenshotRecord), acc.length ≤ maxC →
        (captureLoop maxC envs sid cs i acc).length ≤ maxC) :=
  ⟨capture_screenshots_le,
   fun _ _ _ _ _ _ h => captureLoop_stop h,
   fun maxC envs sid cs i acc h => captureLoop_le cs maxC envs sid i acc h⟩

/-- Witness for C6: with the cap already reached, a remaining candidate is
not processed; a zero-cap call returns no screenshots although a capturable
candidate exists. -/
theorem claim_c6_capture_cap_witness :
    captureLoop 1 (fun _ => candEnvGood) "s" [candA] 2
        [mkScreenshotRecord candA (.str "A") "web" "viral_web_01.png" "full_page" "s" 2000] =
      [mkScreenshotRecord candA (.str "A") "web" "viral_web_01.png" "full_page" "s" 2000] ∧
    (capture_viral_screenshots ⟨true, true, fun _ => candEnvGood⟩ [candA] "s" 0).length ≤ 0 :=
  ⟨claim_c6_capture_cap.2.1 1 (fun _ => candEnvGood) "s" [candA] 2 _ (by simp),
   claim_c6_capture_cap.1 ⟨true, true, fun _ => candEnvGood⟩ [candA] "s" 0⟩

/-- C7: in both capture strategies a record is only created when the saved
file's size strictly exceeds 1024 bytes (and then the file stays on disk
with that size); a saved file of at most 1024 bytes is deleted, leaves no
record and the attempt reports failure; consequently every record in the
list returned by `_capture_viral_screenshots` has size above 1024 bytes. -/
theorem claim_c7_size_threshold :
    (∀ (env : AttemptEnv) (c : PyFields) (url : PyVal) (p : String) (i : Nat)
        (sid : String) (r : ScreenshotRecord),
        (attempt_expanded_view_capture env c url p i sid).record = some r →
        1024 < r.fileSize ∧
          (attempt_expanded_view_capture env c url p i sid).fileKept = some r.fileSize) ∧
    (∀ (env : AttemptEnv) (c : PyFields) (url : PyVal) (p : String) (i : Nat)
        (sid : String) (r : ScreenshotRecord),
        (attempt_normal_page_capture env c url p i sid).record = some r →
        1024 < r.fileSize ∧
          (attempt_normal_page_capture env c url p i sid).fileKept = some r.fileSize) ∧
    (∀ (env : AttemptEnv) (c : PyFields) (url : PyVal) (p : String) (i : Nat)
        (sid : String) (s : Nat), env.saved = some s → s ≤ 1024 →
        attempt_expanded_view_capture env c url p i sid = ⟨false, none, none⟩ ∧
        attempt_normal_page_capture env c url p i sid = ⟨false, none, none⟩) ∧
    (∀ (env : CaptureEnv) (viral : List PyFields) (sid : String) (maxC : Nat),
        ∀ r ∈ capture_viral_screenshots env viral sid maxC, 1024 < r.fileSize) :=
  ⟨fun _ _ _ _ _ _ _ h => attempt_expanded_record_size h,
   fun _ _ _ _ _ _ _ h => attempt_normal_record_size h,
   fun _ c url p i sid _ hs hle => attempt_small_file_deleted c url p i sid hs hle,
   capture_screenshots_sizes⟩

/-- Witness for C7: a 2000-byte screenshot is recorded and kept; a 100-byte
screenshot yields failure with no record and no file, in both strategies. -/
theorem claim_c7_size_threshold_witness :
    (1024 < (mkScreenshotRecord candA (.str "A") "facebook" "viral_post_01.png"
        "expanded_view" "s" 2000).fileSize ∧
      (attempt_expanded_view_capture ⟨true, some 2000⟩ candA (.str "A") "facebook" 1 "s").fileKept
        = some (mkScreenshotRecord candA (.str "A") "facebook" "viral_post_01.png"
            "expanded_view" "s" 2000).fileSize) ∧
    (attempt_expanded_view_capture ⟨true, some 100⟩ candA (.str "A") "facebook" 1 "s" =
        ⟨false, none, none⟩ ∧
      attempt_normal_page_capture ⟨true, some 100⟩ candA (.str "A") "facebook" 1 "s" =
        ⟨false, none, none⟩) :=
  ⟨claim_c7_size_threshold.1 ⟨true, some 2000⟩ candA (.str "A") "facebook" 1 "s" _ rfl,
   claim_c7_size_threshold.2.2.1 ⟨true, some 100⟩ candA (.str "A") "facebook" 1 "s" 100
     rfl (by omega)⟩

/-- C8: when the session's research file is absent, `analyze_viral_content`
does not raise during loading and proceeds with zero candidates, returning a
result whose summary reports `viral_content_found = 0`. -/
theorem claim_c8_missing_research_file :
    ∀ (env : VEnv) (q sid : String) (mc : Nat),
      env.makedirsOk = .ok () → env.fileExists = false →
      (analyze_viral_content env q sid mc).result =
        .ok { session_id := sid, search_query := q, viral_content_identified := [],
              screenshots_captured := [],
              summary := { total_social_items_analyzed := 0, viral_content_found := 0,
                           screenshots_taken := 0 } } := by
  intro env q sid mc h1 h2
  unfold analyze_viral_content
  rw [h1]
  simp only [loadedResearch, h2, Bool.false_eq_true, if_false]
  rfl

/-- Witness for C8 at a concrete environment with the file absent. -/
theorem claim_c8_missing_research_file_witness :
    (analyze_viral_content envNoFile "q" "s" 15).result =
      .ok { session_id := "s", search_query := "q", viral_content_identified := [],
            screenshots_captured := [],
            summary := { total_social_items_analyzed := 0, viral_content_found := 0,
                         screenshots_taken := 0 } } :=
  claim_c8_missing_research_file envNoFile "q" "s" 15 rfl rfl

/-- C3: the asymmetric failure contract of `analyze_viral_content`.  When
the browser-automation import fails (and the rest of the flow is normal:
directory creation succeeds and ranking does not raise), the call returns a
normal result with an empty `screenshots_captured` list.  When an exception
hits the outer orchestration (here: the initial `os.makedirs` raising), the
error record is written to `analise_viral_erro.json` (given the handler's
own directory creation and write succeed) and the same exception is
re-raised to the caller. -/
theorem claim_c3_failure_contract :
    (∀ (env : VEnv) (q sid : String) (mc : Nat) (vs : List PyFields),
        env.makedirsOk = .ok () →
        env.capture.seleniumOk = false →
        identify_viral_content
            ((loadedResearch env).social_results ++ (loadedResearch env).youtube_results)
          = .ok vs →
        (analyze_viral_content env q sid mc).result =
          .ok { session_id := sid, search_query := q, viral_content_identified := vs,
                screenshots_captured := [],
                summary := ⟨((loadedResearch env).social_results ++
                    (loadedResearch env).youtube_results).length, vs.length, 0⟩ }) ∧
    (∀ (env : VEnv) (q sid : String) (mc : Nat) (e : PyErr),
        env.makedirsOk = .error e →
        env.errorMakedirs = .ok () →
        env.errorWriteOk = true →
        (analyze_viral_content env q sid mc).result = .error e ∧
        (analyze_viral_content env q sid mc).writes = [erroPath sid]) := by
  constructor
  · intro env q sid mc vs h1 h2 h3
    have hcap : capture_viral_screenshots env.capture vs sid mc = [] := by
      unfold capture_viral_screenshots
      rw [h2]
      split
      · rfl
      · simp
    unfold analyze_viral_content
    rw [h1]
    simp only [h3, hcap]
    rfl
  · intro env q sid mc e h1 h2 h3
    unfold analyze_viral_content handleAnalyzeError
    rw [h1, h2, h3]
    exact ⟨rfl, rfl⟩

/-- Witness for C3: a concrete run with the selenium import failing returns
normally with no screenshots; a concrete run whose `os.makedirs` raises
writes the error file and re-raises that same exception. -/
theorem claim_c3_failure_contract_witness :
    ((analyze_viral_content envNoSelenium "q" "s" 15).result =
      .ok { session_id := "s", search_query := "q", viral_content_identified := [candA],
            screenshots_captured := [],
            summary := { total_social_items_analyzed := 1, viral_content_found := 1,
                         screenshots_taken := 0 } }) ∧
    (analyze_viral_content envMakedirsFails "q" "s" 15).result =
      .error (.ioError "disk full") ∧
    (analyze_viral_content envMakedirsFails "q" "s" 15).writes = [erroPath "s"] :=
  ⟨claim_c3_failure_contract.1 envNoSelenium "q" "s" 15 [candA] rfl rfl rfl,
   (claim_c3_failure_contract.2 envMakedirsFails "q" "s" 15 (.ioError "disk full")
      rfl rfl rfl).1,
   (claim_c3_failure_contract.2 envMakedirsFails "q" "s" 15 (.ioError "disk full")
      rfl rfl rfl).2⟩

theorem topKeys_fallback :
    topKeysExactly fallback_cpl campos_obrigatorios = true := rfl

theorem topKeys_erro (msg : String) :
    topKeysExactly (erro_cpl msg) campos_obrigatorios = true := rfl

/-- C1 counterexample: when the AI backend returns the parseable text
`"{}"`, `generate_cpl_module` returns the parsed empty mapping as-is, which
does not contain the four required keys — the claimed shape guarantee fails
on the successful-parse path. -/
theorem claim_c1_counterexample :
    (generate_cpl_module (.ok (.ok (.obj .nil))) "sessao"
        .pnone .pnone .pnone .pnone).result = .obj .nil ∧
    topKeysExactly (.obj .nil) campos_obrigatorios = false :=
  ⟨rfl, rfl⟩

/-- C1 (amended): on every degraded path — the AI backend raising, the
returned text failing to parse as JSON, or context assembly raising — the
value returned by `generate_cpl_module` is a mapping with exactly the keys
`titulo`, `descricao`, `fases`, `consideracoes_finais`; on a successful
parse the parsed value is returned unchanged, so no shape guarantee holds
there. -/
theorem claim_c1_amended :
    (∀ (e : PyErr) (sid : String) (sm av ce dw : PyVal),
        topKeysExactly (generate_cpl_module (.error e) sid sm av ce dw).result
          campos_obrigatorios = true) ∧
    (∀ (sid : String) (sm av ce dw : PyVal),
        topKeysExactly (generate_cpl_module (.ok (.error ())) sid sm av ce dw).result
          campos_obrigatorios = true) ∧
    (∀ (ai : Except PyErr (Except Unit PyVal)) (sid : String) (sm av ce dw : PyVal)
        (e : PyErr),
        preparar_contexto_para_ia ce dw = .error e →
        topKeysExactly (generate_cpl_module ai sid sm av ce dw).result
          campos_obrigatorios = true) := by
  refine ⟨?_, ?_, ?_⟩
  · intro e sid sm av ce dw
    unfold generate_cpl_module
    cases h : preparar_contexto_para_ia ce dw
    · exact topKeys_erro _
    · exact topKeys_erro _
  · intro sid sm av ce dw
    unfold generate_cpl_module
    cases h : preparar_contexto_para_ia ce dw
    · exact topKeys_erro _
    · exact topKeys_fallback
  · intro ai sid sm av ce dw e h
    unfold generate_cpl_module
    rw [h]
    exact topKeys_erro _

/-- Witness for the amended C1: a truthy non-dict strategic context makes
context assembly raise, and the returned error structure has exactly the
four keys. -/
theorem claim_c1_amended_witness :
    preparar_contexto_para_ia (PyVal.num 1) PyVal.pnone = .error .attributeError ∧
    topKeysExactly (generate_cpl_module (.ok (.ok (.obj .nil))) "sessao"
        .pnone .pnone (.num 1) .pnone).result campos_obrigatorios = true :=
  ⟨rfl, claim_c1_amended.2.2 (.ok (.ok (.obj .nil))) "sessao" .pnone .pnone
    (.num 1) .pnone .attributeError rfl⟩

theorem validar_obj_eq (fs : PyFields) :
    validar_estrutura_cpl (.obj fs) =
      (campos_obrigatorios.all (fun k => fs.hasKey k) &&
        match allKeysIn fases_esperadas (pyGet fs "fases" (pyObj [])) with
        | .ok b => b
        | .error _ => false) := by
  unfold validar_estrutura_cpl validarBody
  rw [allKeysIn_obj]
  cases campos_obrigatorios.all (fun k => fs.hasKey k) with
  | false => rfl
  | true =>
      simp only [pyGetV, Bool.true_and]

/-- C4 counterexample: a module whose `fases` value is a list holding the
five phase names.  The code's validator returns `true` (Python `in` finds
each name as a list element), yet none of the phase keys is present as a
key — `fases` is not even a mapping — so the claimed iff (`false` exactly
when some required key is absent, independent of the stored values) fails
at this mapping input. -/
theorem claim_c4_counterexample :
    validar_estrutura_cpl moduloFasesLista = true ∧
    validar_estrutura_spec moduloFasesLista = false :=
  ⟨rfl, rfl⟩

/-- C4 (amended): `validar_estrutura_cpl` returns `true` iff the four
top-level keys pass Python's `in` on the module and the five phase keys
pass Python's `in` on the `fases` value: key lookup when `fases` is a
mapping (the claimed behaviour), element membership when it is a list,
and `false` — rather than a raise — when `in` is unsupported for the value
(e.g. a number) or the input is not a mapping at all. -/
theorem claim_c4_amended :
    (∀ (fs gs : PyFields), PyFields.lookup fs "fases" = some (.obj gs) →
        (validar_estrutura_cpl (.obj fs) = true ↔
          ((∀ k ∈ campos_obrigatorios, fs.hasKey k = true) ∧
           (∀ k ∈ fases_esperadas, gs.hasKey k = true)))) ∧
    (∀ (fs : PyFields) (xs : PyList), PyFields.lookup fs "fases" = some (.list xs) →
        (validar_estrutura_cpl (.obj fs) = true ↔
          ((∀ k ∈ campos_obrigatorios, fs.hasKey k = true) ∧
           (∀ k ∈ fases_esperadas, pyIn.memList k xs = true)))) ∧
    (∀ (fs : PyFields) (q : Rat), PyFields.lookup fs "fases" = some (.num q) →
        validar_estrutura_cpl (.obj fs) = false) ∧
    validar_estrutura_cpl .pnone = false ∧
    (∀ q : Rat, validar_estrutura_cpl (.num q) = false) ∧
    (∀ b : Bool, validar_estrutura_cpl (.pbool b) = false) := by
  refine ⟨?_, ?_, ?_, rfl, fun q => rfl, fun b => rfl⟩
  · intro fs gs hlook
    have hget : pyGet fs "fases" (pyObj []) = .obj gs := by
      simp [pyGet, hlook]
    rw [validar_obj_eq, hget, allKeysIn_obj]
    simp [List.all_eq_true]
  · intro fs xs hlook
    have hget : pyGet fs "fases" (pyObj []) = .list xs := by
      simp [pyGet, hlook]
    rw [validar_obj_eq, hget, allKeysIn_list]
    simp [List.all_eq_true]
  · intro fs q hlook
    have hget : pyGet fs "fases" (pyObj []) = .num q := by
      simp [pyGet, hlook]
    rw [validar_obj_eq, hget]
    simp [allKeysIn, pyIn, fases_esperadas]

/-- Witness for the amended C4: a fully shaped module (dict-valued `fases`
with all five phases) validates to `true` through the mapping case of the
characterisation. -/
theorem claim_c4_amended_witness :
    validar_estrutura_cpl (.obj modBomFs) = true :=
  (claim_c4_amended.1 modBomFs modBomFasesFs rfl).mpr ⟨by decide, by decide⟩

/-- C5: `gerar_sumario_executivo` never raises — it returns a summary dict
(with a `titulo_protocolo` entry) on every input, degrading internally on
malformed modules — and on a well-shaped module its complexity label is
computed from the total of teasers in phase 2, detailed success cases in
phase 3, steps in phase 4 and the bonus count: `Alto` above 20, `Baixo`
below 10, `Médio` otherwise; the spec's example (3 teasers + 2 cases +
4 steps + 3 bonus keys = 12) yields `Médio`. -/
theorem claim_c5_sumario :
    (∀ m : PyVal, (gerar_sumario_executivo m).isObj = true ∧
        (pyLookup (gerar_sumario_executivo m) "titulo_protocolo").isSome = true) ∧
    (∀ (teasers casos passos : PyList) (stack : PyFields) (gar est : PyVal),
        pyLookup (gerar_sumario_executivo
            (mkModuloCpl teasers casos passos stack gar est)) "nivel_complexidade"
          = some (.str
              (if 20 < teasers.length + casos.length + passos.length + bonusKeyCount stack
               then "Alto"
               else if teasers.length + casos.length + passos.length + bonusKeyCount stack < 10
               then "Baixo" else "Médio"))) ∧
    pyLookup (gerar_sumario_executivo
        (mkModuloCpl (nCopies 3) (nCopies 2) (nCopies 4) stackBonus3 (pyList [])
          (.str "estrategia"))) "nivel_complexidade" = some (.str "Médio") :=
  ⟨gerar_sumario_isObj, fun _ _ _ _ _ _ => rfl, rfl⟩

/-- Witness for C5: the middle conjunct evaluated at the spec's example
sizes (3, 2, 4, 3 bonus keys) gives exactly the `Médio` label. -/
theorem claim_c5_sumario_witness :
    pyLookup (gerar_sumario_executivo
        (mkModuloCpl (nCopies 3) (nCopies 2) (nCopies 4) stackBonus3 (pyList [])
          (.str "estrategia"))) "nivel_complexidade"
      = some (.str
          (if 20 < (nCopies 3).length + (nCopies 2).length + (nCopies 4).length +
              bonusKeyCount stackBonus3
           then "Alto"
           else if (nCopies 3).length + (nCopies 2).length + (nCopies 4).length +
              bonusKeyCount stackBonus3 < 10
           then "Baixo" else "Médio")) :=
  claim_c5_sumario.2.1 (nCopies 3) (nCopies 2) (nCopies 4) stackBonus3 (pyList [])
    (.str "estrategia")

/-- C9: on the non-degraded path of `gerar_sumario_executivo` the field
`garantias_oferecidas` is `0` whatever the input contains (the code
initialises it to `0` and never reassigns it), while the number of entries
of phase 5's `garantias_agressivas` — when it is a list, else `0` — is
reported under the separate field `total_garantias`. -/
theorem claim_c9_garantias :
    (∀ (m : PyVal) (s : Sumario), gerarSumarioBody m = .ok s →
        s.garantias_oferecidas = 0 ∧
        pyLookup (sumarioToPy s) "garantias_oferecidas" = some (.num 0)) ∧
    (∀ (teasers casos passos : PyList) (stack : PyFields) (xs : PyList) (est : PyVal),
        pyLookup (gerar_sumario_executivo
            (mkModuloCpl teasers casos passos stack (.list xs) est)) "garantias_oferecidas"
          = some (.num 0) ∧
        pyLookup (gerar_sumario_executivo
            (mkModuloCpl teasers casos passos stack (.list xs) est)) "total_garantias"
          = some (.num (xs.length : Rat))) ∧
    (∀ (teasers casos passos : PyList) (stack : PyFields) (q : Rat) (est : PyVal),
        pyLookup (gerar_sumario_executivo
            (mkModuloCpl teasers casos passos stack (.num q) est)) "total_garantias"
          = some (.num 0)) := by
  refine ⟨?_, fun _ _ _ _ _ _ => ⟨rfl, rfl⟩, fun _ _ _ _ _ _ => rfl⟩
  intro m s h
  have h0 := gerarSumarioBody_garantias_oferecidas h
  refine ⟨h0, ?_⟩
  rw [lookup_sumarioToPy_garantias, h0]
  norm_num

/-- Witness for C9: a module with two guarantees reports
`garantias_oferecidas = 0` and `total_garantias = 2`, through the general
body fact. -/
theorem claim_c9_garantias_witness :
    pyLookup (gerar_sumario_executivo
        (mkModuloCpl .nil .nil .nil .nil (pyList [.str "g1", .str "g2"]) (.str "e")))
      "garantias_oferecidas" = some (.num 0) := by
  have h : gerarSumarioBody
      (mkModuloCpl .nil .nil .nil .nil (pyList [.str "g1", .str "g2"]) (.str "e")) = .ok
      { titulo_protocolo := .str "Protocolo", total_fases := 5,
        estrategia_principal := .str "e", evento_recomendado := .pnone,
        total_bonus := 0, garantias_oferecidas := 0,
        nivel_complexidade := "Baixo", tempo_implementacao_estimado := "7-14 dias",
        total_garantias := 2 } := rfl
  have h2 := (claim_c9_garantias.1 _ _ h).2
  unfold gerar_sumario_executivo
  rw [h]
  exact h2

/-- C10: both degraded structures of `generate_cpl_module` have an empty
`fases` mapping and fail `validar_estrutura_cpl`; consequently, whenever the
generator takes a degraded path inside `executar_fluxo_completo_cpl`, the
assembled flow result carries `validacao.estrutura_valida = false`. -/
theorem claim_c10_degraded_invalid :
    validar_estrutura_cpl fallback_cpl = false ∧
    (∀ msg, validar_estrutura_cpl (erro_cpl msg) = false) ∧
    (∀ (ai : Except PyErr (Except Unit PyVal)) (sid now : String) (sm av ce dw : PyVal),
        ((generate_cpl_module ai sid sm av ce dw).result = fallback_cpl ∨
          ∃ msg, (generate_cpl_module ai sid sm av ce dw).result = erro_cpl msg) →
        ((pyLookup (executar_fluxo_completo_cpl ai sid now sm av ce dw) "validacao").bind
            (fun v => pyLookup v "estrutura_valida")) = some (.pbool false)) := by
  refine ⟨rfl, fun msg => rfl, ?_⟩
  intro ai sid now sm av ce dw h
  unfold executar_fluxo_completo_cpl
  rcases h with h | ⟨msg, h⟩ <;> rw [h] <;> rfl

/-- Witness for C10: on a parse failure the generator returns the fallback
and the concrete flow result is marked structurally invalid. -/
theorem claim_c10_degraded_invalid_witness :
    ((pyLookup (executar_fluxo_completo_cpl (.ok (.error ())) "s" "t"
        .pnone .pnone .pnone .pnone) "validacao").bind
      (fun v => pyLookup v "estrutura_valida")) = some (.pbool false) :=
  claim_c10_degraded_invalid.2.2 (.ok (.error ())) "s" "t" .pnone .pnone .pnone .pnone
    (Or.inl rfl)
